import Mathlib

/-!
Shallow embedding of the `trace_logger` Python package
(`src/trace_logger/{config,context,exporter,logger,models,utils}.py`)
and proofs settling the specification claims about it.

Python dynamic values (JSON-like payloads) are modelled by the closed
inductive `PValue`; Python floats are modelled by rationals; Python
`None`/optional fields by `Option`; exceptions by explicit outcome values.
All definitions are translated from the source files named in their doc
comments.
-/

namespace TraceLogger

/-- JSON-like dynamic value: the shape of payloads, metadata and
serialized records handled by the package (objects keep insertion order,
as Python dicts do). -/
inductive PValue where
  | str (s : String)
  | num (q : ℚ)
  | bool (b : Bool)
  | null
  | list (xs : List PValue)
  | obj (entries : List (String × PValue))

/-- Python truthiness of a `PValue` (`bool(x)`): empty containers, empty
strings, zero and `None` are falsy. -/
def pyTruthy : PValue → Bool
  | .str s => s ≠ ""
  | .num q => q ≠ 0
  | .bool b => b
  | .null => false
  | .list xs => !xs.isEmpty
  | .obj entries => !entries.isEmpty

/-- Python truthiness of an optional value holding a `PValue`
(`None` is falsy). -/
def pyTruthyOpt : Option PValue → Bool
  | none => false
  | some v => pyTruthy v

/-- The fixed redaction sentinel used by `utils.redact_payload`. -/
def sentinel : PValue := .str "<<redacted>>"

/-- Python's `str.lower()` on the ASCII key names the package compares
(character-wise lowering). -/
def strLower (s : String) : String := ⟨s.data.map Char.toLower⟩

mutual

/-- The inner `_redact` closure of `utils.redact_payload`
(src/trace_logger/utils.py, lines 22-27).  `ks` is the already-lowercased
`redact_set`; a mapping entry whose lowered key is in `ks` has its value
replaced by the sentinel before the recursive call, exactly as the source
writes `_redact("<<redacted>>" if k.lower() in redact_set else v)`. -/
def pyRedact (ks : List String) : PValue → PValue
  | .obj entries => .obj (pyRedactEntries ks entries)
  | .list xs => .list (pyRedactItems ks xs)
  | v => v

/-- Dict comprehension of `_redact` over the entries of a mapping.  The
source computes `_redact("<<redacted>>" if k.lower() in redact_set else v)`;
`_redact` applied to the sentinel (a plain string) is the identity, so the
matched branch is written as the sentinel directly. -/
def pyRedactEntries (ks : List String) : List (String × PValue) → List (String × PValue)
  | [] => []
  | (k, v) :: rest =>
      (k, if strLower k ∈ ks then sentinel else pyRedact ks v) :: pyRedactEntries ks rest

/-- List comprehension of `_redact` over the items of a list. -/
def pyRedactItems (ks : List String) : List PValue → List PValue
  | [] => []
  | x :: rest => pyRedact ks x :: pyRedactItems ks rest

end

/-- `utils.redact_payload(payload, redact_keys)`
(src/trace_logger/utils.py, lines 16-29): non-mapping input is returned
unchanged; otherwise the lowered key set is built and `_redact` is applied.
The embedding is a pure function, so the "must not mutate the input" part
of the contract holds by construction. -/
def redact_payload (payload : PValue) (redact_keys : List String) : PValue :=
  match payload with
  | .obj entries => pyRedact (redact_keys.map strLower) (.obj entries)
  | p => p

mutual

/-- Modelled from the spec's words for §4.2 (`redact`), to be compared
with the source translation `pyRedact`: any mapping entry whose key
matches a redaction key case-insensitively has its value replaced with
the sentinel, recursively, including within nested mappings and lists. -/
def specRedactVal (keys : List String) : PValue → PValue
  | .obj entries => .obj (specRedactEntries keys entries)
  | .list xs => .list (specRedactItems keys xs)
  | v => v

/-- Spec-side redaction of the entries of a mapping: a matched key's value
becomes the sentinel, an unmatched one is redacted recursively. -/
def specRedactEntries (keys : List String) : List (String × PValue) → List (String × PValue)
  | [] => []
  | (k, v) :: rest =>
      (k, if keys.any (fun key => strLower key = strLower k) then sentinel
          else specRedactVal keys v) :: specRedactEntries keys rest

/-- Spec-side redaction of the items of a list. -/
def specRedactItems (keys : List String) : List PValue → List PValue
  | [] => []
  | x :: rest => specRedactVal keys x :: specRedactItems keys rest

end

/-- Modelled from the spec: `redact(payload, keys)` as §4.2 describes it —
a non-mapping top-level input passes through unchanged, a mapping is
redacted recursively. -/
def redactSpec (payload : PValue) (keys : List String) : PValue :=
  match payload with
  | .obj entries => specRedactVal keys (.obj entries)
  | p => p

/-- `config.TraceLoggerConfig` (src/trace_logger/config.py): the validated
runtime configuration.  `flush_interval` is a Python float, modelled as a
rational. -/
structure TraceLoggerConfig where
  service_name : String
  environment : String
  api_url : String
  batch_size : Int
  flush_interval : ℚ
  redact_keys : List String
  enable_console_fallback : Bool

/-- Python's `s.endswith("/")`: the last character is a slash. -/
def endsWithSlash (s : String) : Bool := s.data.getLast? = some '/'

/-- Python's `s[:-1]`: the string without its last character. -/
def dropLastChar (s : String) : String := ⟨s.data.dropLast⟩

/-- `TraceLoggerConfig.__post_init__` (src/trace_logger/config.py,
lines 17-25) together with dataclass construction: validation raises
(modelled as `Except.error`) before any object is produced, and one
trailing slash is stripped from `api_url` (`self.api_url[:-1]` under
`endswith("/")`).  The `redact_keys` normalisation `tuple(str(key) ...)`
is the identity on a list of strings. -/
def mkConfig (service_name environment api_url : String) (batch_size : Int)
    (flush_interval : ℚ) (redact_keys : List String)
    (enable_console_fallback : Bool) : Except String TraceLoggerConfig :=
  if batch_size < 1 then
    .error "batch_size must be >= 1"
  else if flush_interval ≤ 0 then
    .error "flush_interval must be > 0"
  else
    let api_url := if endsWithSlash api_url then dropLastChar api_url else api_url
    .ok { service_name, environment, api_url, batch_size, flush_interval,
          redact_keys, enable_console_fallback }

/-- A captured Python exception: class name, message and formatted stack
text, the three pieces `logger.log_event` extracts from an error. -/
structure PyErr where
  kind : String
  message : String
  stack : String

/-- `models.TraceRecord` (src/trace_logger/models.py): the immutable
record built at capture close. -/
structure TraceRecord where
  trace_id : String
  service : String
  environment : String
  timestamp : String
  direction : String
  route : String
  method : String
  status_code : Int
  duration_ms : ℚ
  caller_service : Option String := none
  caller_user_id : Option String := none
  caller_ip : Option String := none
  request_payload : Option PValue := none
  response_payload : Option PValue := none
  metadata : Option PValue := none
  error_type : Option String := none
  error_message : Option String := none
  error_stack : Option String := none
  host_name : Option String := none

/-- One optional field of the serialized record: dropped when `None`. -/
def optField (name : String) : Option PValue → List (String × PValue)
  | none => []
  | some v => [(name, v)]

/-- `TraceRecord.to_payload` (src/trace_logger/models.py, lines 27-28):
`asdict` lists the fields in declaration order and every `None`-valued
entry is filtered out. -/
def TraceRecord.to_payload (r : TraceRecord) : List (String × PValue) :=
  [("trace_id", .str r.trace_id),
   ("service", .str r.service),
   ("environment", .str r.environment),
   ("timestamp", .str r.timestamp),
   ("direction", .str r.direction),
   ("route", .str r.route),
   ("method", .str r.method),
   ("status_code", .num (r.status_code : ℚ)),
   ("duration_ms", .num r.duration_ms)]
  ++ optField "caller_service" (r.caller_service.map .str)
  ++ optField "caller_user_id" (r.caller_user_id.map .str)
  ++ optField "caller_ip" (r.caller_ip.map .str)
  ++ optField "request_payload" r.request_payload
  ++ optField "response_payload" r.response_payload
  ++ optField "metadata" r.metadata
  ++ optField "error_type" (r.error_type.map .str)
  ++ optField "error_message" (r.error_message.map .str)
  ++ optField "error_stack" (r.error_stack.map .str)
  ++ optField "host_name" (r.host_name.map .str)

/-- Everything observable `LogExporter._flush` does on one call: the
batches passed to `send_logs`, the batches passed to `send_error_logs`,
the serialized records printed to the console, and whether an exception
escaped the method. -/
structure FlushTrace where
  primaryCalls : List (List TraceRecord)
  secondaryCalls : List (List TraceRecord)
  console : List (List (String × PValue))
  escaped : Bool

/-- `LogExporter._flush` (src/trace_logger/exporter.py, lines 49-73).
The transport is modelled by two oracles: `primaryRaises` (whether
`send_logs` raises) and `secondaryRaises` (whether `send_error_logs`
raises when invoked).  An invocation is recorded when the call is made,
whether or not it then raises; the `except Exception` handler prints the
failure notice and every record's `to_payload` when console fallback is
enabled, and never re-raises. -/
def flush (enable_console_fallback : Bool) (records : List TraceRecord)
    (primaryRaises secondaryRaises : Bool) : FlushTrace :=
  let error_records := records.filter (fun r => decide (400 ≤ r.status_code))
  if primaryRaises then
    { primaryCalls := [records], secondaryCalls := [],
      console := if enable_console_fallback then records.map TraceRecord.to_payload else [],
      escaped := false }
  else if error_records.isEmpty then
    { primaryCalls := [records], secondaryCalls := [], console := [], escaped := false }
  else if secondaryRaises then
    { primaryCalls := [records], secondaryCalls := [error_records],
      console := if enable_console_fallback then records.map TraceRecord.to_payload else [],
      escaped := false }
  else
    { primaryCalls := [records], secondaryCalls := [error_records], console := [],
      escaped := false }

/-- Nondeterministic environment of one iteration of `LogExporter.run`
(src/trace_logger/exporter.py, lines 23-44):
`stopAtCheck` is the value `self._stop_event.is_set()` reads at the
`while` condition, `stopAtFlush` the value it reads inside `should_flush`
(the flag is set by another thread, so the two reads may differ within
one iteration), and `timeElapsed` is whether
`time.time() - last_flush >= self.config.flush_interval` holds at the
`should_flush` evaluation. -/
structure IterInput where
  stopAtCheck : Bool
  stopAtFlush : Bool
  tNow : ℚ
  tReset : ℚ

/-- The worker's state between iterations: the local `buffer` list, the
pending records of the shared queue in FIFO order, and the `last_flush`
timestamp.  The producers' records are taken to be enqueued before the
iterations considered. -/
structure WState where
  buffer : List TraceRecord
  queue : List TraceRecord
  last_flush : ℚ

/-- One iteration of the `while` loop of `LogExporter.run`: `none` when
the loop condition `not stop or not queue.empty()` fails and the loop
exits; otherwise the new state together with the buffer flushed this
iteration, if any.  `queue.get(timeout=...)` returns the head when the
queue is non-empty and times out (`queue.Empty`, pass) otherwise;
`should_flush` is the source's three-way disjunction, its time-based
disjunct evaluated at `inp.tNow`; after `_flush` the buffer is reset to
`[]` and `last_flush` to the then-current time `inp.tReset`. -/
def iter (batch_size : Int) (flush_interval : ℚ) (st : WState) (inp : IterInput) :
    Option (WState × Option (List TraceRecord)) :=
  if inp.stopAtCheck && st.queue.isEmpty then
    none
  else
    let st1 : WState :=
      match st.queue with
      | [] => st
      | r :: rest => { st with buffer := st.buffer ++ [r], queue := rest }
    let should_flush : Bool :=
      decide (batch_size ≤ (st1.buffer.length : Int))
      || (!st1.buffer.isEmpty && decide (flush_interval ≤ inp.tNow - st1.last_flush))
      || (inp.stopAtFlush && !st1.buffer.isEmpty)
    if should_flush then
      some ({ buffer := [], queue := st1.queue, last_flush := inp.tReset },
            some st1.buffer)
    else
      some (st1, none)

/-- `LogExporter.run` restricted to a finite schedule of iteration
environments: returns the state when the schedule (or the loop) ends and
the list of flushed buffers, in order. -/
def runIters (batch_size : Int) (flush_interval : ℚ) (st : WState) :
    List IterInput → WState × List (List TraceRecord)
  | [] => (st, [])
  | inp :: rest =>
      match iter batch_size flush_interval st inp with
      | none => (st, [])
      | some (st1, flushed) =>
          let (st2, fs) := runIters batch_size flush_interval st1 rest
          (st2, flushed.toList ++ fs)

/-- Python truthiness of an optional string (`None` and `""` are falsy). -/
def pyTruthyStr : Option String → Bool
  | none => false
  | some s => s ≠ ""

/-- The correlation store (src/trace_logger/context.py) paired with the
`uuid.uuid4()` generator: `stored` is the `ContextVar` value of the
current logical unit of execution and `counter` drives the fresh-token
generator that stands in for uuid4 (each draw yields a token never
produced before). -/
structure Ctx where
  stored : Option String
  counter : ℕ

/-- Stand-in for `str(uuid.uuid4())`: an injective generator of non-empty
tokens driven by a draw counter. -/
def freshId (n : ℕ) : String := ⟨List.replicate (n + 1) 'u'⟩

/-- `TraceLogger.ensure_trace_id` (src/trace_logger/logger.py,
lines 41-49): `current = trace_id or get_trace_id()`; if `current` is
falsy a fresh uuid is generated; `set_trace_id(current)` always runs and
`current` is returned. -/
def ensure_trace_id (trace_id : Option String) (ctx : Ctx) : String × Ctx :=
  let current : Option String := if pyTruthyStr trace_id then trace_id else ctx.stored
  match current with
  | some s =>
      if s ≠ "" then (s, { ctx with stored := some s })
      else (freshId ctx.counter, { stored := some (freshId ctx.counter), counter := ctx.counter + 1 })
  | none => (freshId ctx.counter, { stored := some (freshId ctx.counter), counter := ctx.counter + 1 })

/-- `TraceLogger.clear_trace` / `context.clear_trace_id`: the stored id
of the current unit becomes `None`. -/
def clear_trace (ctx : Ctx) : Ctx := { ctx with stored := none }

/-- The status resolution at capture close
(src/trace_logger/logger.py, line 132):
`capture.status_code or (500 if capture.error else 200)` — Python `or`
falls through when `status_code` is `None` **or** `0`. -/
def resolveStatus (status_code : Option Int) (error : Option PyErr) : Int :=
  match status_code with
  | some s => if s ≠ 0 then s else if error.isSome then 500 else 200
  | none => if error.isSome then 500 else 200

/-- `round(x, 2)` on the modelled rational durations (round half up; the
claims do not depend on the tie-breaking of Python's float rounding). -/
def round2 (q : ℚ) : ℚ := (⌊q * 100 + 1 / 2⌋ : ℚ) / 100

/-- `logger.TraceCapture` (src/trace_logger/logger.py, lines 16-33):
the mutable in-flight capture. -/
structure TraceCapture where
  status_code : Option Int := none
  response_payload : Option PValue := none
  additional_metadata : PValue := .obj []
  error : Option PyErr := none

/-- Python dict assignment `d[key] = value`: replace the value of an
existing key in place, else append the entry. -/
def dictSet (entries : List (String × PValue)) (key : String) (value : PValue) :
    List (String × PValue) :=
  if entries.any (fun e => e.1 = key) then
    entries.map (fun e => if e.1 = key then (key, value) else e)
  else
    entries ++ [(key, value)]

/-- `TraceCapture.set_response` (src/trace_logger/logger.py, lines 23-25). -/
def TraceCapture.set_response (c : TraceCapture) (status_code : Int)
    (response_payload : Option PValue := none) : TraceCapture :=
  { c with status_code := some status_code, response_payload := response_payload }

/-- `TraceCapture.add_metadata` (src/trace_logger/logger.py, lines 27-28). -/
def TraceCapture.add_metadata (c : TraceCapture) (key : String) (value : PValue) :
    TraceCapture :=
  match c.additional_metadata with
  | .obj entries => { c with additional_metadata := .obj (dictSet entries key value) }
  | m => { c with additional_metadata := m }

/-- `TraceCapture.set_error` (src/trace_logger/logger.py, lines 30-31). -/
def TraceCapture.set_error (c : TraceCapture) (error : PyErr) : TraceCapture :=
  { c with error := some error }

/-- `TraceCapture.__init__`'s `metadata or {}`: a falsy `metadata`
(`None` or an empty dict) becomes a fresh empty dict. -/
def pyMetaInit : Option PValue → PValue
  | some m => if pyTruthy m then m else .obj []
  | none => .obj []

/-- `TraceLogger.log_event` (src/trace_logger/logger.py, lines 51-101):
normalises the trace id through `ensure_trace_id`, extracts the error
triple, builds the `TraceRecord` — request/response payloads go through
`redact_payload` only when truthy, `metadata` is stored verbatim — and
returns it (the source then enqueues it on the exporter).  `timestamp`
stands for `utc_iso_now()` and `host_name` for the value captured at
logger construction. -/
def log_event (cfg : TraceLoggerConfig) (host_name timestamp : String)
    (direction route method : String) (status_code : Int) (duration_ms : ℚ)
    (caller_service caller_user_id caller_ip : Option String)
    (request_payload response_payload metadata : Option PValue)
    (trace_id : Option String) (error : Option PyErr) (ctx : Ctx) :
    TraceRecord × Ctx :=
  let (normalized_trace_id, ctx1) := ensure_trace_id trace_id ctx
  ({ trace_id := normalized_trace_id,
     service := cfg.service_name,
     environment := cfg.environment,
     timestamp := timestamp,
     direction := direction, route := route, method := method,
     status_code := status_code,
     duration_ms := round2 duration_ms,
     caller_service := caller_service, caller_user_id := caller_user_id,
     caller_ip := caller_ip,
     request_payload := match request_payload with
       | some p => if pyTruthy p then some (redact_payload p cfg.redact_keys) else none
       | none => none,
     response_payload := match response_payload with
       | some p => if pyTruthy p then some (redact_payload p cfg.redact_keys) else none
       | none => none,
     metadata := metadata,
     error_type := error.map (fun e => e.kind),
     error_message := error.map (fun e => e.message),
     error_stack := error.map (fun e => e.stack),
     host_name := some host_name }, ctx1)

/-- `TraceLogger.capture_request` (src/trace_logger/logger.py,
lines 103-143).  The caller's block is modelled by `body`, the function
applying every mutation the block performs on the yielded capture, and
`raised`, the exception the block raises (`none` when it returns
normally).  The `except Exception` clause records the error on the
capture and re-raises; the `finally` clause always resolves the final
status and emits one record through `log_event`.  Returns the records
emitted, the outcome propagated to the caller, and the correlation
state. -/
def capture_request (cfg : TraceLoggerConfig) (host_name timestamp : String)
    (direction route method : String)
    (caller_service caller_user_id caller_ip : Option String)
    (request_payload metadata : Option PValue) (trace_id : Option String)
    (body : TraceCapture → TraceCapture) (raised : Option PyErr)
    (duration_raw : ℚ) (ctx : Ctx) :
    List TraceRecord × Option PyErr × Ctx :=
  let (tid, ctx1) := ensure_trace_id trace_id ctx
  let capture0 : TraceCapture := { additional_metadata := pyMetaInit metadata }
  let c1 := body capture0
  let c2 := match raised with
    | some e => c1.set_error e
    | none => c1
  let status_code := resolveStatus c2.status_code c2.error
  let (record, ctx2) := log_event cfg host_name timestamp direction route method
    status_code duration_raw caller_service caller_user_id caller_ip
    request_payload c2.response_payload (some c2.additional_metadata)
    (some tid) c2.error ctx1
  ([record], raised, ctx2)

/-- A sample valid configuration used to instantiate theorems. -/
def sampleConfig : TraceLoggerConfig :=
  { service_name := "svc", environment := "test", api_url := "http://api",
    batch_size := 20, flush_interval := 2, redact_keys := [],
    enable_console_fallback := true }

/-- A sample configuration whose redaction keys contain `"password"`. -/
def pwConfig : TraceLoggerConfig :=
  { service_name := "svc", environment := "test", api_url := "http://api",
    batch_size := 20, flush_interval := 2, redact_keys := ["password"],
    enable_console_fallback := true }

/-- A sample record with the given status code. -/
def sampleRecord (status : Int) : TraceRecord :=
  { trace_id := "t", service := "svc", environment := "test", timestamp := "ts",
    direction := "inbound", route := "/r", method := "GET",
    status_code := status, duration_ms := 0 }

/-! ### Helper lemmas -/

/-- The fresh-token generator never yields the empty string. -/
theorem freshId_ne_empty (n : ℕ) : freshId n ≠ "" := by
  intro h
  have hd : (freshId n).data = ("" : String).data := congrArg String.data h
  simp [freshId] at hd

/-- Distinct draws of the fresh-token generator are distinct tokens. -/
theorem freshId_ne_of_ne {m n : ℕ} (h : m ≠ n) : freshId m ≠ freshId n := by
  intro he
  have hd : (freshId m).data.length = (freshId n).data.length :=
    congrArg (fun s => s.data.length) he
  simp [freshId] at hd
  omega

/-- Key matching in the source (`k.lower() in redact_set`) and in the
spec (case-insensitive match against the configured keys) agree. -/
theorem mem_lower_iff_any (ks : List String) (k : String) :
    (strLower k ∈ ks.map strLower) ↔
      (ks.any (fun key => strLower key = strLower k) = true) := by
  simp only [List.mem_map, List.any_eq_true, decide_eq_true_eq]

mutual

/-- The source redactor run on the lowered key set coincides with the
spec-side redactor on every value. -/
theorem pyRedact_eq_spec (ks : List String) :
    (v : PValue) → pyRedact (ks.map strLower) v = specRedactVal ks v
  | .str _ => rfl
  | .num _ => rfl
  | .bool _ => rfl
  | .null => rfl
  | .list xs => by rw [pyRedact, specRedactVal, pyRedactItems_eq_spec ks xs]
  | .obj es => by rw [pyRedact, specRedactVal, pyRedactEntries_eq_spec ks es]

/-- Entry-wise agreement of the two redactors on mapping entries. -/
theorem pyRedactEntries_eq_spec (ks : List String) :
    (es : List (String × PValue)) →
      pyRedactEntries (ks.map strLower) es = specRedactEntries ks es
  | [] => rfl
  | (k, v) :: rest => by
      rw [pyRedactEntries, specRedactEntries, pyRedactEntries_eq_spec ks rest]
      by_cases h : strLower k ∈ ks.map strLower
      · rw [if_pos h, if_pos ((mem_lower_iff_any ks k).mp h)]
      · rw [if_neg h, if_neg (fun hb => h ((mem_lower_iff_any ks k).mpr hb)),
          pyRedact_eq_spec ks v]

/-- Item-wise agreement of the two redactors on list items. -/
theorem pyRedactItems_eq_spec (ks : List String) :
    (xs : List PValue) →
      pyRedactItems (ks.map strLower) xs = specRedactItems ks xs
  | [] => rfl
  | x :: rest => by
      rw [pyRedactItems, specRedactItems, pyRedact_eq_spec ks x,
        pyRedactItems_eq_spec ks rest]

end

/-! ### Claim theorems -/

/-- C7: `redact_payload` returns a copy in which every mapping entry whose
key matches a redaction key case-insensitively has its value replaced by
the sentinel `"<<redacted>>"`, recursively through nested mappings and
lists under a mapping; any non-mapping top-level input is returned
unchanged (the embedding is a pure function, so the input is never
mutated).  Stated as: the source translation agrees with the function
modelled from the spec's words on every payload and key set, and the
spec's own worked example evaluates as the spec requires. -/
theorem C7_redact_matches_spec :
    (∀ (p : PValue) (ks : List String), redact_payload p ks = redactSpec p ks) ∧
    redact_payload
        (.obj [("password", .str "x"), ("nested", .obj [("Password", .str "y")])])
        ["password"]
      = .obj [("password", sentinel), ("nested", .obj [("Password", sentinel)])] := by
  constructor
  · intro p ks
    cases p with
    | obj es => exact pyRedact_eq_spec ks (.obj es)
    | str s => rfl
    | num q => rfl
    | bool b => rfl
    | null => rfl
    | list xs => rfl
  · simp +decide [redact_payload, pyRedact, pyRedactEntries, sentinel]

/-- C8 counterexample: constructing a configuration with an **empty
service name** succeeds (nothing in `__post_init__` validates it), and
the produced object's `api_url` can still end with a trailing slash (only
one slash is stripped from `"http://x//"`), so the claim that
construction fails on an empty service name — and that a constructed
configuration's `api_url` never ends with a slash — is false. -/
theorem C8_counterexample :
    mkConfig "" "prod" "http://x//" 1 1 [] true
      = .ok { service_name := "", environment := "prod", api_url := "http://x/",
              batch_size := 1, flush_interval := 1, redact_keys := [],
              enable_console_fallback := true }
    ∧ endsWithSlash "http://x/" = true ∧ ("" : String) = "" := by
  refine ⟨?_, rfl, rfl⟩
  rfl

/-- C8 (amended): construction fails immediately, producing no object,
iff the batch size is less than 1 or the flush interval is not strictly
positive; the service name is **not** validated (an empty one is
accepted); on success the fields are stored as given except that exactly
one trailing slash is stripped from `api_url` (an address ending in
`"//"` keeps a trailing slash). -/
theorem C8_amended (sn env url : String) (bs : Int) (fi : ℚ) (rk : List String)
    (cf : Bool) :
    ((bs < 1 ∨ fi ≤ 0) → (mkConfig sn env url bs fi rk cf).isOk = false) ∧
    (1 ≤ bs → 0 < fi →
      mkConfig sn env url bs fi rk cf
        = .ok { service_name := sn, environment := env,
                api_url := if endsWithSlash url then dropLastChar url else url,
                batch_size := bs, flush_interval := fi, redact_keys := rk,
                enable_console_fallback := cf }) := by
  constructor
  · rintro (h | h)
    · simp [mkConfig, h, Except.isOk, Except.toBool]
    · by_cases h1 : bs < 1
      · simp [mkConfig, h1, Except.isOk, Except.toBool]
      · simp [mkConfig, h1, h, Except.isOk, Except.toBool]
  · intro h1 h2
    rw [mkConfig, if_neg (by omega), if_neg (not_le.mpr h2)]

/-- Witness for C8 (amended): a valid configuration is built with its
trailing slash stripped. -/
theorem C8_amended_witness :
    mkConfig "svc" "test" "http://api/" 20 2 [] true
      = .ok { service_name := "svc", environment := "test", api_url := "http://api",
              batch_size := 20, flush_interval := 2, redact_keys := [],
              enable_console_fallback := true } :=
  (C8_amended "svc" "test" "http://api/" 20 2 [] true).2 (by norm_num) (by norm_num)

/-- C5 counterexample: a capture closed via `capture_request` whose body
explicitly set status `0` through `set_response` emits a record with
status `200`, not `0` — Python's `or` treats the explicitly set `0` as
unset, so the claim fails for the explicitly set value `0`. -/
theorem C5_counterexample :
    ((capture_request sampleConfig "host" "ts" "inbound" "/r" "GET" none none none
        none none none (fun c => c.set_response 0 none) none 0 ⟨none, 0⟩).1.map
          (fun r => r.status_code)) = [200] ∧ ((200 : Int) ≠ 0) := by
  exact ⟨rfl, by decide⟩

/-- C5 (amended): the emitted record's status equals the explicitly set
status whenever that status is **non-zero**; when no status was set it is
500 if an error was recorded and 200 otherwise (an explicitly set 0 is
treated as unset by `status_code or (...)`). -/
theorem C5_amended (s : Int) (resp : Option PValue) (raised : Option PyErr)
    (e : PyErr) (cfg : TraceLoggerConfig) (host ts dir route method : String)
    (cs cu ci : Option String) (rp meta : Option PValue) (tid : Option String)
    (d : ℚ) (ctx : Ctx) :
    (s ≠ 0 →
      ((capture_request cfg host ts dir route method cs cu ci rp meta tid
          (fun c => c.set_response s resp) raised d ctx).1.map
            (fun r => r.status_code)) = [s]) ∧
    ((capture_request cfg host ts dir route method cs cu ci rp meta tid
        (fun c => c) (some e) d ctx).1.map (fun r => r.status_code)) = [500] ∧
    ((capture_request cfg host ts dir route method cs cu ci rp meta tid
        (fun c => c) none d ctx).1.map (fun r => r.status_code)) = [200] := by
  refine ⟨fun hs => ?_, ?_, ?_⟩
  · cases raised <;>
      simp [capture_request, log_event, resolveStatus, TraceCapture.set_response,
        TraceCapture.set_error, hs]
  · simp [capture_request, log_event, resolveStatus, TraceCapture.set_error]
  · simp [capture_request, log_event, resolveStatus]

/-- Witness for C5 (amended): an explicitly set 404 is emitted as 404. -/
theorem C5_amended_witness :
    ((capture_request sampleConfig "host" "ts" "inbound" "/r" "GET" none none none
        none none none (fun c => c.set_response 404 none) none 0 ⟨none, 0⟩).1.map
          (fun r => r.status_code)) = [404] :=
  (C5_amended 404 none none ⟨"E", "m", "s"⟩ sampleConfig "host" "ts" "inbound" "/r"
      "GET" none none none none none none 0 ⟨none, 0⟩).1 (by decide)

/-- C9: within one correlation scope, a second argument-less
`ensure_trace_id` call returns exactly the id stored by the first; and
after `clear_trace` the next call returns a newly generated id distinct
from the cleared one. -/
theorem C9_trace_id :
    (∀ ctx : Ctx,
      (ensure_trace_id none (ensure_trace_id none ctx).2).1
        = (ensure_trace_id none ctx).1) ∧
    (∀ c : ℕ,
      (ensure_trace_id none
          (clear_trace (ensure_trace_id none
            (ensure_trace_id none ⟨none, c⟩).2).2)).1
        ≠ (ensure_trace_id none ⟨none, c⟩).1) := by
  constructor
  · intro ctx
    cases hst : ctx.stored with
    | none => simp [ensure_trace_id, pyTruthyStr, hst, freshId_ne_empty]
    | some s =>
        by_cases hs : s = "" <;>
          simp [ensure_trace_id, pyTruthyStr, hst, hs, freshId_ne_empty]
  · intro c
    simp only [ensure_trace_id, pyTruthyStr, clear_trace]
    simp [freshId_ne_empty, freshId_ne_of_ne (by omega : c + 1 ≠ c)]

/-- C10: `log_event` (and hence `capture_request`, which emits through
it) places the metadata mapping into the record verbatim, without passing
it through the redactor — an entry whose key matches a configured
redaction key keeps its original value — while the request and response
payloads are the only payloads passed through `redact_payload`.  The
concrete conjuncts show a `password` entry surviving in metadata under a
configuration that redacts `password`, while the redactor applied to the
same mapping would have masked it. -/
theorem C10_metadata_unredacted :
    (∀ (cfg : TraceLoggerConfig) (host ts dir route method : String) (sc : Int)
       (d : ℚ) (cs cu ci : Option String) (rp resp meta : Option PValue)
       (tid : Option String) (err : Option PyErr) (ctx : Ctx),
      ((log_event cfg host ts dir route method sc d cs cu ci rp resp meta tid
          err ctx).1).metadata = meta ∧
      ((log_event cfg host ts dir route method sc d cs cu ci rp resp meta tid
          err ctx).1).request_payload
        = (match rp with
           | some p => if pyTruthy p then some (redact_payload p cfg.redact_keys) else none
           | none => none) ∧
      ((log_event cfg host ts dir route method sc d cs cu ci rp resp meta tid
          err ctx).1).response_payload
        = (match resp with
           | some p => if pyTruthy p then some (redact_payload p cfg.redact_keys) else none
           | none => none)) ∧
    ((log_event pwConfig "h" "t" "inbound" "/r" "GET" 200 0 none none none none
        none (some (.obj [("password", .str "hunter2")])) none none
        ⟨none, 0⟩).1).metadata = some (.obj [("password", .str "hunter2")]) ∧
    redact_payload (.obj [("password", .str "hunter2")]) pwConfig.redact_keys
      = .obj [("password", sentinel)] := by
  refine ⟨fun cfg host ts dir route method sc d cs cu ci rp resp meta tid err ctx =>
    ⟨rfl, rfl, rfl⟩, rfl, ?_⟩
  simp +decide [redact_payload, pyRedact, pyRedactEntries, sentinel, pwConfig]

/-- Every batch `_flush` passes to the secondary error-ingestion
operation is exactly the error subset of the flushed records. -/
theorem flush_secondary_mem (en : Bool) (records : List TraceRecord) (p s : Bool) :
    ∀ batch ∈ (flush en records p s).secondaryCalls,
      batch = records.filter (fun r => decide (400 ≤ r.status_code)) := by
  intro batch hb
  unfold flush at hb
  by_cases hp : p = true
  · simp [hp] at hb
  · by_cases he : (records.filter (fun r => decide (400 ≤ r.status_code))).isEmpty
    · simp [hp, he] at hb
    · by_cases hs : s = true <;> simp [hp, he, hs] at hb <;> exact hb

/-- C2 counterexample: a flush of a single status-500 record in which the
primary send raises never invokes the secondary error-ingestion
operation, even though the error subset is non-empty — so the claim that
the error subset, if non-empty, is additionally sent to the secondary
operation fails for that flush. -/
theorem C2_counterexample :
    (flush true [sampleRecord 500] true false).secondaryCalls = [] ∧
    ([sampleRecord 500].filter (fun r => decide (400 ≤ r.status_code))).isEmpty
      = false := by
  exact ⟨rfl, rfl⟩

/-- C2 (amended): for every flushed buffer, the primary ingestion
operation is invoked exactly once with the full buffer; **provided the
primary send does not raise**, the subset of records with status ≥ 400,
if non-empty, is additionally sent as a separate batch to the secondary
error-ingestion operation (those error records being included in the
primary batch as well); and records with status < 400 are never sent to
the secondary operation. -/
theorem C2_amended (en : Bool) (records : List TraceRecord) (p s : Bool) :
    (flush en records p s).primaryCalls = [records] ∧
    (p = false →
      (flush en records p s).secondaryCalls
        = (if (records.filter (fun r => decide (400 ≤ r.status_code))).isEmpty
           then []
           else [records.filter (fun r => decide (400 ≤ r.status_code))])) ∧
    (∀ batch ∈ (flush en records p s).secondaryCalls, ∀ r ∈ batch,
      400 ≤ r.status_code) ∧
    (∀ batch ∈ (flush en records p s).secondaryCalls, ∀ r ∈ batch,
      r ∈ records) := by
  refine ⟨?_, ?_, ?_, ?_⟩
  · unfold flush
    by_cases hp : p = true
    · simp [hp]
    · by_cases he : (records.filter (fun r => decide (400 ≤ r.status_code))).isEmpty
      · simp [hp, he]
      · by_cases hs : s = true <;> simp [hp, he, hs]
  · intro hp
    unfold flush
    by_cases he : (records.filter (fun r => decide (400 ≤ r.status_code))).isEmpty
    · simp [hp, he]
    · by_cases hs : s = true <;> simp [hp, he, hs]
  · intro batch hb r hr
    rw [flush_secondary_mem en records p s batch hb] at hr
    have := List.mem_filter.mp hr
    exact of_decide_eq_true this.2
  · intro batch hb r hr
    rw [flush_secondary_mem en records p s batch hb] at hr
    exact (List.mem_filter.mp hr).1

/-- Witness for C2 (amended): flushing a 200 record and a 500 record with
both sends succeeding invokes the primary operation with both records and
the secondary operation with only the 500 record. -/
theorem C2_amended_witness :
    (flush true [sampleRecord 200, sampleRecord 500] false false).primaryCalls
      = [[sampleRecord 200, sampleRecord 500]] ∧
    (flush true [sampleRecord 200, sampleRecord 500] false false).secondaryCalls
      = [[sampleRecord 500]] := by
  have h := C2_amended true [sampleRecord 200, sampleRecord 500] false false
  refine ⟨h.1, ?_⟩
  rw [h.2.1 rfl]
  rfl

/-- Any worker iteration that flushes leaves an empty buffer, resets
`last_flush` to the post-flush clock reading, and only consumes the
queue. -/
theorem iter_flush_resets (bs : Int) (iv : ℚ) (st : WState) (inp : IterInput)
    (st' : WState) (f : List TraceRecord)
    (h : iter bs iv st inp = some (st', some f)) :
    st'.buffer = [] ∧ st'.last_flush = inp.tReset ∧
      st'.queue.IsSuffix st.queue := by
  cases hq : st.queue with
  | nil =>
      simp only [iter, hq, List.isEmpty_nil, Bool.and_true] at h
      by_cases hstop : inp.stopAtCheck = true
      · simp [hstop] at h
      · simp only [hstop, if_false, Bool.false_eq_true] at h
        split at h
        · simp only [Option.some.injEq, Prod.mk.injEq] at h
          obtain ⟨h1, h2⟩ := h
          rw [← h1]
          exact ⟨rfl, rfl, List.suffix_refl []⟩
        · simp at h
  | cons r rest =>
      simp only [iter, hq, List.isEmpty_cons, Bool.and_false] at h
      simp only [Bool.false_eq_true, if_false] at h
      split at h
      · simp only [Option.some.injEq, Prod.mk.injEq] at h
        obtain ⟨h1, h2⟩ := h
        rw [← h1]
        exact ⟨rfl, rfl, List.suffix_cons r rest⟩
      · simp at h

/-- C3: for every flush in which the primary send raises, or the
secondary send is invoked and raises: with console fallback enabled every
record of the flush is printed in serialized (`to_payload`) form, with it
disabled nothing is printed; no exception escapes `_flush` in either
case; and — for every worker iteration that flushes, whatever the
outcome — the buffer is cleared, `last_flush` is reset to the post-flush
clock reading, and the queue is only ever consumed (a suffix survives),
so no record is re-enqueued or retried. -/
theorem C3_flush_failure (en : Bool) (records : List TraceRecord) (p s : Bool)
    (hfail : p = true ∨
      ((records.filter (fun r => decide (400 ≤ r.status_code))).isEmpty = false
        ∧ s = true)) :
    ((flush en records p s).console
        = if en then records.map TraceRecord.to_payload else []) ∧
    (flush en records p s).escaped = false ∧
    (∀ (bs : Int) (iv : ℚ) (st : WState) (inp : IterInput) (st' : WState)
        (f : List TraceRecord),
      iter bs iv st inp = some (st', some f) →
        st'.buffer = [] ∧ st'.last_flush = inp.tReset ∧
          st'.queue.IsSuffix st.queue) := by
  refine ⟨?_, ?_, fun bs iv st inp st' f h => iter_flush_resets bs iv st inp st' f h⟩
  · rcases hfail with hp | ⟨he, hs⟩
    · unfold flush
      simp [hp]
    · unfold flush
      by_cases hp : p = true
      · simp [hp]
      · simp [hp, he, hs]
  · unfold flush
    by_cases hp : p = true
    · simp [hp]
    · by_cases he : (records.filter (fun r => decide (400 ≤ r.status_code))).isEmpty
      · simp [hp, he]
      · by_cases hs : s = true <;> simp [hp, he, hs]

/-- Witness for C3: a failing primary send with console fallback enabled
prints the whole flush in serialized form and lets no exception escape. -/
theorem C3_flush_failure_witness :
    (flush true [sampleRecord 500] true false).console
      = [sampleRecord 500].map TraceRecord.to_payload ∧
    (flush true [sampleRecord 500] true false).escaped = false := by
  have h := C3_flush_failure true [sampleRecord 500] true false (Or.inl rfl)
  exact ⟨by rw [h.1]; rfl, h.2.1⟩

/-- Flattening one-record flushes recovers the record sequence. -/
theorem join_map_singleton {α : Type} (l : List α) :
    (l.map (fun a => [a])).flatten = l := by
  induction l with
  | nil => rfl
  | cons a rest ih => simp [ih]

/-- From an empty buffer and an empty queue, a worker with a positive
batch size never flushes again, whatever the schedule. -/
theorem runIters_idle (n : Int) (iv : ℚ) (hn : 1 ≤ n) (L : ℚ)
    (inputs : List IterInput) :
    runIters n iv ⟨[], [], L⟩ inputs = (⟨[], [], L⟩, []) := by
  induction inputs with
  | nil => rfl
  | cons inp rest ih =>
      have hb : ¬ (n ≤ (0 : Int)) := by omega
      by_cases hs : inp.stopAtCheck = true
      · simp [runIters, iter, hs]
      · simp [runIters, iter, hs, hb, ih]

set_option maxRecDepth 8000 in
/-- Filling phase of C1: with the queue holding exactly the records that
complete a batch, no stop request and no elapsed flush interval, the
worker reads them one per iteration and flushes exactly once, emitting
the whole batch in enqueue order. -/
theorem runIters_fill (n : Int) (iv : ℚ) :
    ∀ (q b : List TraceRecord) (L : ℚ) (inputs : List IterInput),
      q ≠ [] → ((b.length + q.length : ℕ) : Int) = n →
      q.length ≤ inputs.length →
      (∀ inp ∈ inputs, inp.stopAtCheck = false ∧ inp.stopAtFlush = false ∧
        inp.tNow - L < iv) →
      (runIters n iv ⟨b, q, L⟩ inputs).2 = [b ++ q] ∧
      (runIters n iv ⟨b, q, L⟩ inputs).1.buffer = [] ∧
      (runIters n iv ⟨b, q, L⟩ inputs).1.queue = [] := by
  intro q
  induction q with
  | nil => intro b L inputs hne; exact absurd rfl hne
  | cons r q' ih =>
      intro b L inputs _ hlen hk hquiet
      cases inputs with
      | nil => simp at hk
      | cons inp rest =>
          obtain ⟨hsc, hsf, ht⟩ := hquiet inp (List.mem_cons_self inp rest)
          have htime : ¬ (iv ≤ inp.tNow - L) := not_le.mpr ht
          cases hq' : q' with
          | nil =>
              subst hq'
              have hn : n = ((b.length + 1 : ℕ) : Int) := by
                rw [← hlen]; simp
              have hflush : n ≤ ((b ++ [r]).length : Int) := by
                rw [hn]; simp
              have hone : (1 : Int) ≤ n := by rw [hn]; exact_mod_cast Nat.succ_le_succ (Nat.zero_le _)
              simp only [runIters, iter, hsc, Bool.false_and, Bool.false_eq_true,
                if_false, hflush, decide_eq_true_eq]
              simp [runIters_idle n iv hone, hflush]
          | cons r2 q'' =>
              rw [← hq']
              have hq1 : 1 ≤ q'.length := by rw [hq']; simp
              have hlen2 : (r :: q').length = q'.length + 1 := by simp
              rw [hlen2] at hlen
              have hnotfull : ¬ (n ≤ ((b ++ [r]).length : Int)) := by
                have h2 : (b ++ [r]).length = b.length + 1 := by simp
                rw [h2]
                omega
              have hstep := ih (b ++ [r]) L rest (by rw [hq']; simp)
                (by
                  have h3 : (b ++ [r]).length + q'.length = b.length + (q'.length + 1) := by
                    simp; omega
                  rw [h3, hlen])
                (by simpa [hq'] using hk)
                (fun i hi => hquiet i (List.mem_cons_of_mem inp hi))
              have hq'ne : q' ≠ [] := by rw [hq']; simp
              simp only [runIters, iter, hsc, Bool.false_and, Bool.false_eq_true,
                if_false, hnotfull, decide_eq_true_eq, htime, hsf]
              simpa [← List.append_cons] using hstep

/-- C1: for every configuration with `batch_size = n`, enqueueing `n`
records and running the worker with no stop request and no iteration at
which the flush interval has elapsed produces exactly one flush, and that
flush contains exactly those `n` records in enqueue order (afterwards the
buffer and queue are empty). -/
theorem C1_batch_flush (rs : List TraceRecord) (iv L : ℚ)
    (inputs : List IterInput) (hne : rs ≠ [])
    (hk : rs.length ≤ inputs.length)
    (hquiet : ∀ inp ∈ inputs, inp.stopAtCheck = false ∧ inp.stopAtFlush = false ∧
      inp.tNow - L < iv) :
    (runIters (rs.length : Int) iv ⟨[], rs, L⟩ inputs).2 = [rs] ∧
    (runIters (rs.length : Int) iv ⟨[], rs, L⟩ inputs).1.buffer = [] ∧
    (runIters (rs.length : Int) iv ⟨[], rs, L⟩ inputs).1.queue = [] := by
  have h := runIters_fill (rs.length : Int) iv rs [] L inputs hne (by simp) hk hquiet
  simpa using h

/-- Witness for C1: a batch size of 2 with two enqueued records produces
the single flush `[r200, r503]`. -/
theorem C1_batch_flush_witness :
    (runIters 2 5 ⟨[], [sampleRecord 200, sampleRecord 503], 0⟩
        [⟨false, false, 1, 1⟩, ⟨false, false, 1, 1⟩]).2
      = [[sampleRecord 200, sampleRecord 503]] :=
  (C1_batch_flush [sampleRecord 200, sampleRecord 503] 5 0
      [⟨false, false, 1, 1⟩, ⟨false, false, 1, 1⟩]
      (by simp) (by simp)
      (by
        intro inp hi
        fin_cases hi <;> exact ⟨rfl, rfl, by norm_num⟩)).1

/-- Draining phase of shutdown: once the stop event is visible both at
the loop condition and at the flush decision, the worker reads one record
per iteration and flushes it immediately, until the queue is empty; it
then exits with an empty buffer. -/
theorem runIters_drain (n : Int) (iv : ℚ) :
    ∀ (q : List TraceRecord) (rest : List IterInput) (L : ℚ),
      (∀ inp ∈ rest, inp.stopAtCheck = true ∧ inp.stopAtFlush = true) →
      q.length ≤ rest.length →
      (runIters n iv ⟨[], q, L⟩ rest).2 = q.map (fun r => [r]) ∧
      (runIters n iv ⟨[], q, L⟩ rest).1.buffer = [] ∧
      (runIters n iv ⟨[], q, L⟩ rest).1.queue = [] := by
  intro q
  induction q with
  | nil =>
      intro rest L hrest _
      cases rest with
      | nil => exact ⟨rfl, rfl, rfl⟩
      | cons inp rest2 =>
          obtain ⟨h1, _⟩ := hrest inp (List.mem_cons_self inp rest2)
          simp [runIters, iter, h1]
  | cons r q' ih =>
      intro rest L hrest hlen
      cases rest with
      | nil => simp at hlen
      | cons inp rest2 =>
          obtain ⟨h1, h2⟩ := hrest inp (List.mem_cons_self inp rest2)
          have hstep := ih rest2 inp.tReset
            (fun i hi => hrest i (List.mem_cons_of_mem inp hi))
            (by simpa using hlen)
          refine ⟨?_, ?_, ?_⟩ <;>
            simp [runIters, iter, h1, h2, hstep.1, hstep.2.1, hstep.2.2]

/-- C4 counterexample: batch size 2, one record enqueued.  The worker's
first iteration moves the record into its buffer without flushing (no
trigger holds); the stop signal is then raised, and at the next
loop-condition check the worker sees the stop event set and the queue
empty and exits — the flush list is empty, so the buffered record at stop
time is in no flush, contradicting the claim that no such record is ever
lost. -/
theorem C4_counterexample :
    (runIters 2 5 ⟨[], [sampleRecord 200], 0⟩
        [⟨false, false, 0, 0⟩, ⟨true, true, 0, 0⟩]).2 = [] ∧
    (runIters 2 5 ⟨[], [sampleRecord 200], 0⟩
        [⟨false, false, 0, 0⟩]).1.buffer = [sampleRecord 200] := by
  constructor <;> norm_num [runIters, iter]

/-- C4 (amended): if the stop signal first becomes visible to the worker
at the flush-decision point of an iteration (as happens when it is raised
while the worker is blocked on the queue read) and is visible from then
on, the worker drains the queue one record per iteration — still through
the ordinary flush triggers — flushes every remaining buffered record,
and exits with an empty buffer and empty queue: every record present in
the buffer or queue at stop time appears in some flush.  (If instead the
stop signal first becomes visible at a loop-condition check while the
queue is empty, the counterexample shows the buffered records are
dropped.) -/
theorem C4_amended (b q : List TraceRecord) (n : Int) (iv L : ℚ)
    (inp0 : IterInput) (rest : List IterInput) (hn : 1 ≤ n)
    (h0c : inp0.stopAtCheck = false) (h0f : inp0.stopAtFlush = true)
    (hrest : ∀ inp ∈ rest, inp.stopAtCheck = true ∧ inp.stopAtFlush = true)
    (hlen : q.length ≤ rest.length + 1) :
    ((runIters n iv ⟨b, q, L⟩ (inp0 :: rest)).2).flatten = b ++ q ∧
    (runIters n iv ⟨b, q, L⟩ (inp0 :: rest)).1.buffer = [] ∧
    (runIters n iv ⟨b, q, L⟩ (inp0 :: rest)).1.queue = [] := by
  cases q with
  | nil =>
      by_cases hb : b = []
      · subst hb
        have hb0 : ¬ (n ≤ (0 : Int)) := by omega
        have hdrain := runIters_drain n iv [] rest L hrest (by simp)
        refine ⟨?_, ?_, ?_⟩ <;>
          simp [runIters, iter, h0c, hb0, hdrain.1, hdrain.2.1, hdrain.2.2]
      · have hbe : b.isEmpty = false := by simpa using hb
        have hdrain := runIters_drain n iv [] rest inp0.tReset hrest (by simp)
        refine ⟨?_, ?_, ?_⟩ <;>
          simp [runIters, iter, h0c, h0f, hbe, hdrain.1, hdrain.2.1, hdrain.2.2]
  | cons r q' =>
      have hdrain := runIters_drain n iv q' rest inp0.tReset hrest
        (by simpa using hlen)
      refine ⟨?_, ?_, ?_⟩ <;>
        simp [runIters, iter, h0c, h0f, hdrain.1, hdrain.2.1, hdrain.2.2,
          join_map_singleton]

/-- Witness for C4 (amended): with the stop raised during the queue wait
of the first iteration, the single enqueued record is flushed before
exit. -/
theorem C4_amended_witness :
    ((runIters 2 5 ⟨[], [sampleRecord 200], 0⟩
        [⟨false, true, 0, 0⟩, ⟨true, true, 0, 0⟩]).2).flatten
      = [sampleRecord 200] := by
  have h := C4_amended [] [sampleRecord 200] 2 5 0 ⟨false, true, 0, 0⟩
      [⟨true, true, 0, 0⟩] (by omega) rfl rfl
      (by intro inp hi; fin_cases hi; exact ⟨rfl, rfl⟩) (by simp)
  simpa using h.1

/-- C6: every passage through `capture_request` builds and emits exactly
one record, on the normal and on the raising exit path alike; the outcome
propagated to the caller is exactly the body's outcome (the exception is
re-raised unchanged, never swallowed or replaced, and only after the
record is emitted); and when the body raised, the error's kind, message
and stack are recorded on that record. -/
theorem C6_capture_emission (cfg : TraceLoggerConfig)
    (host ts dir route method : String) (cs cu ci : Option String)
    (rp meta : Option PValue) (tid : Option String)
    (body : TraceCapture → TraceCapture) (raised : Option PyErr) (d : ℚ)
    (ctx : Ctx) :
    (capture_request cfg host ts dir route method cs cu ci rp meta tid body
      raised d ctx).1.length = 1 ∧
    (capture_request cfg host ts dir route method cs cu ci rp meta tid body
      raised d ctx).2.1 = raised ∧
    (∀ e, raised = some e →
      ∀ r ∈ (capture_request cfg host ts dir route method cs cu ci rp meta tid
          body raised d ctx).1,
        r.error_type = some e.kind ∧ r.error_message = some e.message ∧
          r.error_stack = some e.stack) := by
  refine ⟨rfl, rfl, ?_⟩
  intro e he r hr
  subst he
  simp only [capture_request, log_event, TraceCapture.set_error,
    List.mem_singleton] at hr
  subst hr
  exact ⟨rfl, rfl, rfl⟩

/-- Witness for C6: a body raising `ValueError` still emits exactly one
record, the error propagates unchanged, and the record carries the error
kind. -/
theorem C6_capture_emission_witness :
    (capture_request sampleConfig "h" "t" "inbound" "/r" "GET" none none none
        none none none (fun c => c) (some ⟨"ValueError", "boom", "tb"⟩) 0
        ⟨none, 0⟩).1.length = 1 ∧
    (capture_request sampleConfig "h" "t" "inbound" "/r" "GET" none none none
        none none none (fun c => c) (some ⟨"ValueError", "boom", "tb"⟩) 0
        ⟨none, 0⟩).2.1 = some ⟨"ValueError", "boom", "tb"⟩ ∧
    ((capture_request sampleConfig "h" "t" "inbound" "/r" "GET" none none none
        none none none (fun c => c) (some ⟨"ValueError", "boom", "tb"⟩) 0
        ⟨none, 0⟩).1.map (fun r => r.error_type)) = [some "ValueError"] := by
  have h := C6_capture_emission sampleConfig "h" "t" "inbound" "/r" "GET" none
      none none none none none (fun c => c) (some ⟨"ValueError", "boom", "tb"⟩)
      0 ⟨none, 0⟩
  exact ⟨h.1, h.2.1, rfl⟩

end TraceLogger
